import Mathlib

/-
Verification development for the insurance-claim service in
src/app_cloudrun.py.  The repository's Python code is shallowly embedded
below: the response normalizer inside analyze_claim (lines 92-129), the
PDF text extraction wrapper extract_text_from_pdf (lines 17-34), and the
/analyze request handler (lines 141-220).  Machine-level aspects not
modelled: Python recursion limits, the CPython int-digit conversion limit,
Unicode full case mapping (only ASCII case mapping is modelled), JSON
float literals (the model replies under the declared schema carry integer
risk scores), and surrogate-pair decoding in JSON string escapes.
-/

namespace AppCloudrun

/-- Python str.strip() whitespace test (ASCII subset of Python's rule;
Unicode space characters are not modelled). -/
def isPyWs (c : Char) : Bool :=
  c = ' ' || c = '\t' || c = '\n' || c = '\r' || c = '\x0b' || c = '\x0c'

/-- Right-hand side of Python str.strip(): drop trailing whitespace. -/
def stripRight (l : List Char) : List Char :=
  (l.reverse.dropWhile isPyWs).reverse

/-- Python str.strip() on a character list: drop leading and trailing
whitespace. -/
def pyStripList (l : List Char) : List Char :=
  stripRight (l.dropWhile isPyWs)

/-- Embedding of Python str.strip() (used at line 92, `response.text.strip()`,
and inside int()). -/
def pyStrip (s : String) : String := ⟨pyStripList s.data⟩

/-- Embedding of Python str.lower() (ASCII case mapping). -/
def pyLower (s : String) : String := ⟨s.data.map Char.toLower⟩

/-- Embedding of Python str.upper() (ASCII case mapping). -/
def pyUpper (s : String) : String := ⟨s.data.map Char.toUpper⟩

/-- Embedding of Python string slicing s[:n] (by code points). -/
def pyTake (s : String) (n : Nat) : String := ⟨s.data.take n⟩

/-- Embedding of Python str.startswith. -/
def pyStartswith (s p : String) : Bool := p.data.isPrefixOf s.data

/-- Embedding of Python str.endswith. -/
def pyEndswith (s p : String) : Bool := p.data.isSuffixOf s.data

/-- Values produced by json.loads: null, booleans, integer numbers,
strings, arrays and objects.  Objects keep their members in source order;
lookup takes the last binding, matching dict insertion overwrite for
duplicate keys.  JSON floats are not modelled (see header). -/
inductive Json where
  | jnull : Json
  | jbool (b : Bool) : Json
  | jint (n : Int) : Json
  | jstr (s : String) : Json
  | jarr (xs : List Json) : Json
  | jobj (fields : List (String × Json)) : Json

/-- JSON insignificant whitespace (RFC 8259 / Python json). -/
def isJsonWs (c : Char) : Bool :=
  c = ' ' || c = '\t' || c = '\n' || c = '\r'

/-- Skip JSON whitespace. -/
def skipWs (l : List Char) : List Char := l.dropWhile isJsonWs

/-- Hexadecimal digit value, for \uXXXX escapes. -/
def hexVal (c : Char) : Option Nat :=
  if '0' ≤ c && c ≤ '9' then some (c.toNat - 48)
  else if 'a' ≤ c && c ≤ 'f' then some (c.toNat - 87)
  else if 'A' ≤ c && c ≤ 'F' then some (c.toNat - 55)
  else none

/-- Decimal value of a digit list (most significant first). -/
def natOfDigits (l : List Char) : Nat :=
  l.foldl (fun a c => a * 10 + (c.toNat - 48)) 0

/-- Parse a JSON number from the head of the input.  Integer literals
only; a fraction or exponent part is rejected (floats not modelled).
Enforces the JSON no-leading-zero rule. -/
def parseNumber (cs : List Char) : Option (Json × List Char) :=
  let sign : Bool := match cs with
    | '-' :: _ => true
    | _ => false
  let cs1 := if sign then cs.drop 1 else cs
  let ds := cs1.takeWhile Char.isDigit
  let rest := cs1.dropWhile Char.isDigit
  if ds = [] then none
  else if ds.length > 1 && ds.headD '0' = '0' then none
  else match rest with
    | '.' :: _ => none
    | 'e' :: _ => none
    | 'E' :: _ => none
    | _ =>
      let n : Int := Int.ofNat (natOfDigits ds)
      some (Json.jint (if sign then -n else n), rest)

mutual

/-- Parse one JSON value from the head of the input.  Fuel-driven; the
caller provides fuel exceeding the input length, so fuel never runs out
on the recursive calls (each consumes at least one character). -/
def parseValue : Nat → List Char → Option (Json × List Char)
  | 0, _ => none
  | _, [] => none
  | fuel + 1, c :: rest =>
    if c = '\x7b' then
      match skipWs rest with
      | [] => none
      | c1 :: r1 =>
        if c1 = '\x7d' then some (Json.jobj [], r1)
        else parseMembers fuel (c1 :: r1) []
    else if c = '[' then
      match skipWs rest with
      | [] => none
      | c1 :: r1 =>
        if c1 = ']' then some (Json.jarr [], r1)
        else parseElems fuel (c1 :: r1) []
    else if c = '"' then
      match parseStringBody fuel [] rest with
      | some (s, r) => some (Json.jstr s, r)
      | none => none
    else if c = '-' || c.isDigit then parseNumber (c :: rest)
    else if c = 'n' then
      match rest with
      | 'u' :: 'l' :: 'l' :: r => some (Json.jnull, r)
      | _ => none
    else if c = 't' then
      match rest with
      | 'r' :: 'u' :: 'e' :: r => some (Json.jbool true, r)
      | _ => none
    else if c = 'f' then
      match rest with
      | 'a' :: 'l' :: 's' :: 'e' :: r => some (Json.jbool false, r)
      | _ => none
    else none

/-- Parse the members of a JSON object after the opening brace (the
input starts at the first member's key). -/
def parseMembers : Nat → List Char → List (String × Json) →
    Option (Json × List Char)
  | 0, _, _ => none
  | fuel + 1, cs, acc =>
    match skipWs cs with
    | [] => none
    | c :: r =>
      if c = '"' then
        match parseStringBody fuel [] r with
        | none => none
        | some (k, r2) =>
          match skipWs r2 with
          | [] => none
          | c2 :: r3 =>
            if c2 = ':' then
              match parseValue fuel (skipWs r3) with
              | none => none
              | some (v, r4) =>
                match skipWs r4 with
                | [] => none
                | c3 :: r5 =>
                  if c3 = ',' then parseMembers fuel r5 ((k, v) :: acc)
                  else if c3 = '\x7d' then
                    some (Json.jobj ((k, v) :: acc).reverse, r5)
                  else none
            else none
      else none

/-- Parse the elements of a JSON array after the opening bracket (the
input starts at the first element). -/
def parseElems : Nat → List Char → List Json → Option (Json × List Char)
  | 0, _, _ => none
  | fuel + 1, cs, acc =>
    match parseValue fuel (skipWs cs) with
    | none => none
    | some (v, r) =>
      match skipWs r with
      | [] => none
      | c :: r2 =>
        if c = ',' then parseElems fuel r2 (v :: acc)
        else if c = ']' then some (Json.jarr (v :: acc).reverse, r2)
        else none

/-- Parse the body of a JSON string after the opening quote, with the
standard escapes.  A \uXXXX escape is decoded as a single code point
(surrogate pairs not modelled; an invalid code point falls back to the
default character). -/
def parseStringBody : Nat → List Char → List Char →
    Option (String × List Char)
  | 0, _, _ => none
  | _, _, [] => none
  | fuel + 1, acc, c :: rest =>
    if c = '"' then some (⟨acc.reverse⟩, rest)
    else if c = '\\' then
      match rest with
      | [] => none
      | e :: rest2 =>
        if e = '"' then parseStringBody fuel ('"' :: acc) rest2
        else if e = '\\' then parseStringBody fuel ('\\' :: acc) rest2
        else if e = '/' then parseStringBody fuel ('/' :: acc) rest2
        else if e = 'b' then parseStringBody fuel ('\x08' :: acc) rest2
        else if e = 'f' then parseStringBody fuel ('\x0c' :: acc) rest2
        else if e = 'n' then parseStringBody fuel ('\n' :: acc) rest2
        else if e = 'r' then parseStringBody fuel ('\r' :: acc) rest2
        else if e = 't' then parseStringBody fuel ('\t' :: acc) rest2
        else if e = 'u' then
          match rest2 with
          | a :: b :: c2 :: d :: rest3 =>
            match hexVal a, hexVal b, hexVal c2, hexVal d with
            | some ha, some hb, some hc, some hd =>
              parseStringBody fuel
                (Char.ofNat (ha * 4096 + hb * 256 + hc * 16 + hd) :: acc) rest3
            | _, _, _, _ => none
          | _ => none
        else none
    else if c.toNat < 32 then none
    else parseStringBody fuel (c :: acc) rest

end

/-- Embedding of the external collaborator json.loads (Python stdlib):
parse a complete JSON document, allowing surrounding whitespace; `none`
models a raised json.JSONDecodeError. -/
def json_loads (s : String) : Option Json :=
  match parseValue (s.data.length + 1) (skipWs s.data) with
  | some (v, rest) => if skipWs rest = [] then some v else none
  | none => none

/-- Lookup in a parsed JSON object, last binding wins (dict overwrite
semantics for duplicate keys in json.loads). -/
def pyDictLookup (fields : List (String × Json)) (key : String) : Option Json :=
  match fields with
  | [] => none
  | (k, v) :: rest =>
    match pyDictLookup rest key with
    | some r => some r
    | none => if k = key then some v else none

/-- Python type name of a decoded JSON value, as it appears in exception
messages. -/
def pyTypeName : Json → String
  | Json.jnull => "NoneType"
  | Json.jbool _ => "bool"
  | Json.jint _ => "int"
  | Json.jstr _ => "str"
  | Json.jarr _ => "list"
  | Json.jobj _ => "dict"

/-- Character-level escaping inside Python repr of a string (backslash
and quote; the \xNN escapes for control characters and the quote-style
switch are not modelled — the messages built from this are only ever
truncated, never parsed). -/
def escReprList : List Char → List Char
  | [] => []
  | c :: r =>
    if c = '\\' then '\\' :: '\\' :: escReprList r
    else if c = '\x27' then '\\' :: '\x27' :: escReprList r
    else c :: escReprList r

/-- Python repr of a string (single-quoted). -/
def pyReprStr (s : String) : String :=
  "\x27" ++ (⟨escReprList s.data⟩ : String) ++ "\x27"

/-- Comma-space join, as in Python list/dict repr. -/
def joinComma : List String → String
  | [] => ""
  | [x] => x
  | x :: xs => x ++ ", " ++ joinComma xs

mutual

/-- Python repr of a decoded JSON value. -/
def pyReprJson : Json → String
  | Json.jnull => "None"
  | Json.jbool b => if b then "True" else "False"
  | Json.jint n => toString n
  | Json.jstr s => pyReprStr s
  | Json.jarr xs => "[" ++ joinComma (pyReprJsonList xs) ++ "]"
  | Json.jobj fs => "\x7b" ++ joinComma (pyReprJsonFields fs) ++ "\x7d"

/-- Element reprs of a list value. -/
def pyReprJsonList : List Json → List String
  | [] => []
  | x :: xs => pyReprJson x :: pyReprJsonList xs

/-- Member reprs of a dict value. -/
def pyReprJsonFields : List (String × Json) → List String
  | [] => []
  | (k, v) :: fs => (pyReprStr k ++ ": " ++ pyReprJson v) :: pyReprJsonFields fs

end

/-- Embedding of Python str() on a decoded JSON value (line 106 applies
it to the reasoning field). -/
def pyStr (j : Json) : String :=
  match j with
  | Json.jstr s => s
  | _ => pyReprJson j

/-- Nonempty all-digit check and value, for int() on strings. -/
def digitsToNat (l : List Char) : Option Nat :=
  if l = [] then none
  else if l.all Char.isDigit then some (natOfDigits l) else none

/-- Embedding of Python int() applied to a string: surrounding
whitespace, an optional sign, then decimal digits (numeric-literal
underscores and non-ASCII digits are not modelled). -/
def pyIntOfString (s : String) : Option Int :=
  match pyStripList s.data with
  | '-' :: ds => (digitsToNat ds).map (fun n => -(Int.ofNat n))
  | '+' :: ds => (digitsToNat ds).map Int.ofNat
  | ds => (digitsToNat ds).map Int.ofNat

/-- Embedding of Python int() on a decoded JSON value (line 99).  On
failure the error carries str(e) of the raised ValueError/TypeError; the
ValueError message truncates the repr of the operand to 200 characters,
as CPython's %.200R format does. -/
def pyInt : Json → Except String Int
  | Json.jint n => Except.ok n
  | Json.jbool b => Except.ok (if b then 1 else 0)
  | Json.jstr s =>
    match pyIntOfString s with
    | some n => Except.ok n
    | none => Except.error
        ("invalid literal for int() with base 10: " ++ pyTake (pyReprStr s) 200)
  | j => Except.error
      ("int() argument must be a string, a bytes-like object or a real number, not \x27"
        ++ pyTypeName j ++ "\x27")

/-- Embedding of .upper() on a decoded JSON value (line 102): an
AttributeError escapes if the value is not a string. -/
def pyUpperJ : Json → Except String String
  | Json.jstr s => Except.ok (pyUpper s)
  | j => Except.error
      ("\x27" ++ pyTypeName j ++ "\x27 object has no attribute \x27upper\x27")

/-- Embedding of .get(key, default) on a decoded JSON value (lines 99,
102, 106): an AttributeError escapes if the value is not a dict. -/
def pyDictGet (j : Json) (key : String) (dflt : Json) : Except String Json :=
  match j with
  | Json.jobj fields => Except.ok ((pyDictLookup fields key).getD dflt)
  | _ => Except.error
      ("\x27" ++ pyTypeName j ++ "\x27 object has no attribute \x27get\x27")

/-- The three-field verdict record built by analyze_claim
(risk_score / recommendation / reasoning). -/
structure Verdict where
  risk_score : Int
  recommendation : String
  reasoning : String
deriving DecidableEq, Repr

/-- Return value of analyze_claim: the verdict fields plus the optional
"error" key that only the exception fallback (lines 124-129) adds. -/
structure AnalyzeResult where
  verdict : Verdict
  error : Option String
deriving DecidableEq, Repr

/-- Embedding of the field extraction and sanitization on a parsed reply
(lines 99-112), as an Except whose error is str(e) of the first Python
exception raised; the caller's outer handler absorbs that error.  The
evaluation order matches the source: risk_score get + int, clamp,
recommendation get + upper, enum check, reasoning get + str + slice. -/
def normalizeInner (parsed : Json) : Except String Verdict :=
  match pyDictGet parsed "risk_score" (Json.jint 50) with
  | Except.error e => Except.error e
  | Except.ok rsj =>
    match pyInt rsj with
    | Except.error e => Except.error e
    | Except.ok rs0 =>
      match pyDictGet parsed "recommendation" (Json.jstr "REVIEW") with
      | Except.error e => Except.error e
      | Except.ok rcj =>
        match pyUpperJ rcj with
        | Except.error e => Except.error e
        | Except.ok rcu =>
          match pyDictGet parsed "reasoning" (Json.jstr "No reasoning provided") with
          | Except.error e => Except.error e
          | Except.ok rj =>
            Except.ok
              { risk_score := max 0 (min 100 rs0)
                recommendation :=
                  if rcu ∈ ["APPROVE", "REVIEW", "DENY"] then rcu else "REVIEW"
                reasoning := pyTake (pyStr rj) 1000 }

/-- Normalization of an already parsed reply, together with the outer
exception fallback of analyze_claim (lines 122-129): a Python exception
raised during field extraction is absorbed into a degraded verdict with
an "error" key. -/
def analyze_claim_of_parsed (parsed : Json) : AnalyzeResult :=
  match normalizeInner parsed with
  | Except.ok v => { verdict := v, error := none }
  | Except.error e =>
    { verdict :=
        { risk_score := 50
          recommendation := "REVIEW"
          reasoning := "System error occurred: " ++ e }
      error := some e }

/-- The Response Normalizer: lines 92-120 of analyze_claim applied to the
model's raw reply text — strip, json.loads, JSONDecodeError fallback,
field sanitization, outer exception fallback.  Total by construction: no
exception reaches the caller. -/
def analyze_claim_normalize (raw : String) : AnalyzeResult :=
  match json_loads (pyStrip raw) with
  | none =>
    { verdict :=
        { risk_score := 50
          recommendation := "REVIEW"
          reasoning := "Unable to parse model response. Please review manually." }
      error := none }
  | some parsed => analyze_claim_of_parsed parsed

/-- Whole analyze_claim outcome given the Model Client outcome (an
external collaborator): a transport/API exception is absorbed by the
outer handler (lines 122-129); a raw reply goes through the normalizer. -/
def analyze_claim_full (modelOutcome : Except String String) : AnalyzeResult :=
  match modelOutcome with
  | Except.error e =>
    { verdict :=
        { risk_score := 50
          recommendation := "REVIEW"
          reasoning := "System error occurred: " ++ e }
      error := some e }
  | Except.ok raw => analyze_claim_normalize raw

/-- Concatenation of the per-page texts as in lines 20-26: each truthy
(nonempty) page text is appended followed by a newline.  The per-page
strings are what the external PyPDF2 extract_text calls return. -/
def joinPages (pages : List String) : String :=
  pages.foldl (fun acc p => if p ≠ "" then acc ++ p ++ "\n" else acc) ""

/-- Embedding of extract_text_from_pdf (lines 17-34).  `pages` are the
page texts the external PDF reader produces; `exc` is str(e) of an
exception raised while opening or reading the PDF (`none` when reading
succeeds).  Failure is signalled in-band by an "Error"-prefixed string. -/
def extract_text_from_pdf (pages : List String) (exc : Option String) : String :=
  match exc with
  | some e => "Error: " ++ e
  | none =>
    if pyStrip (joinPages pages) = "" then "Error: No text could be extracted from PDF"
    else joinPages pages

/-- JSON body of a /analyze response together with its HTTP status.
Optional keys are present only on the paths that set them in the source. -/
structure AnalyzeResponse where
  status : Nat
  error : Option String
  risk_score : Int
  recommendation : String
  reasoning : String
  filename : Option String
  processed_at : Option String
  model : Option String
deriving DecidableEq, Repr

/-- Embedding of the /analyze handler (lines 141-220).  External effects
are parameters: `hasFile` is whether the multipart field "file" is
present; `filename` the uploaded name (secure_filename, an external
collaborator, is modelled as the identity); `saveExc` models an
unanticipated exception raised while storing the upload (the only
operation inside the try block, after validation, that can raise —
extract_text_from_pdf and analyze_claim both catch their own
exceptions); `pages`/`extractExc` feed the extraction; `modelOutcome`
the Model Client; `now` the datetime.now() ISO string.  The second
component records whether analyze_claim (and hence the Model Client)
was invoked.  The finally-block temp-file cleanup (lines 213-220) is an
external filesystem effect and is not modelled. -/
def analyze_route (hasFile : Bool) (filename : String) (saveExc : Option String)
    (pages : List String) (extractExc : Option String)
    (modelOutcome : Except String String) (now : String) :
    AnalyzeResponse × Bool :=
  if hasFile = false then
    ({ status := 400, error := some "No file uploaded", risk_score := 0,
       recommendation := "ERROR", reasoning := "Please upload a PDF file",
       filename := none, processed_at := none, model := none }, false)
  else if filename = "" then
    ({ status := 400, error := some "Empty filename", risk_score := 0,
       recommendation := "ERROR", reasoning := "No file selected",
       filename := none, processed_at := none, model := none }, false)
  else if pyEndswith (pyLower filename) ".pdf" = false then
    ({ status := 400, error := some "Invalid file type", risk_score := 0,
       recommendation := "ERROR", reasoning := "Only PDF files are supported",
       filename := none, processed_at := none, model := none }, false)
  else
    match saveExc with
    | some e =>
      ({ status := 500, error := some e, risk_score := 0,
         recommendation := "ERROR", reasoning := "System error: " ++ e,
         filename := none, processed_at := none, model := none }, false)
    | none =>
      if pyStartswith (extract_text_from_pdf pages extractExc) "Error" then
        ({ status := 200, error := some "PDF processing failed", risk_score := 0,
           recommendation := "ERROR",
           reasoning := extract_text_from_pdf pages extractExc,
           filename := none, processed_at := none, model := none }, false)
      else
        ({ status := 200, error := (analyze_claim_full modelOutcome).error,
           risk_score := (analyze_claim_full modelOutcome).verdict.risk_score,
           recommendation := (analyze_claim_full modelOutcome).verdict.recommendation,
           reasoning := (analyze_claim_full modelOutcome).verdict.reasoning,
           filename := some filename, processed_at := some now,
           model := some "fine-tuned-gemini" }, true)

/-- The ModelVerdict invariants of the specification: risk_score within
[0, 100], recommendation in the three-value enum, reasoning at most 1000
characters. -/
def VerdictOk (v : Verdict) : Prop :=
  0 ≤ v.risk_score ∧ v.risk_score ≤ 100 ∧
  (v.recommendation = "APPROVE" ∨ v.recommendation = "REVIEW" ∨
    v.recommendation = "DENY") ∧
  v.reasoning.length ≤ 1000

/-- The risk_score field, if present, converts to an integer without a
Python exception (so line 99 raises nothing). -/
def riskFieldOk (fields : List (String × Json)) : Bool :=
  match pyDictLookup fields "risk_score" with
  | none => true
  | some j =>
    match pyInt j with
    | Except.ok _ => true
    | Except.error _ => false

/-- The recommendation field, if present, is a string (so .upper() at
line 102 raises nothing). -/
def recFieldOk (fields : List (String × Json)) : Bool :=
  match pyDictLookup fields "recommendation" with
  | none => true
  | some (Json.jstr _) => true
  | some _ => false

theorem pyTake_length_le (s : String) (n : Nat) : (pyTake s n).length ≤ n := by
  show (s.data.take n).length ≤ n
  rw [List.length_take]
  omega

theorem pyDictGet_error_bound (j : Json) (key : String) (d : Json)
    (e : String) (h : pyDictGet j key d = Except.error e) :
    e.length ≤ 300 := by
  cases j with
  | jnull => simp [pyDictGet, pyTypeName] at h; subst h; decide
  | jbool b => simp [pyDictGet, pyTypeName] at h; subst h; decide
  | jint n => simp [pyDictGet, pyTypeName] at h; subst h; decide
  | jstr s => simp [pyDictGet, pyTypeName] at h; subst h; decide
  | jarr xs => simp [pyDictGet, pyTypeName] at h; subst h; decide
  | jobj fs => simp [pyDictGet] at h

theorem pyInt_error_bound (j : Json) (e : String)
    (h : pyInt j = Except.error e) : e.length ≤ 300 := by
  cases j with
  | jint n => simp [pyInt] at h
  | jbool b => simp [pyInt] at h
  | jnull => simp [pyInt, pyTypeName] at h; subst h; decide
  | jarr xs => simp [pyInt, pyTypeName] at h; subst h; decide
  | jobj fs => simp [pyInt, pyTypeName] at h; subst h; decide
  | jstr s =>
    cases hp : pyIntOfString s with
    | some n => simp [pyInt, hp] at h
    | none =>
      simp [pyInt, hp] at h
      subst h
      rw [String.length_append]
      have h1 : ("invalid literal for int() with base 10: ").length ≤ 100 := by decide
      have h2 := pyTake_length_le (pyReprStr s) 200
      omega

theorem pyUpperJ_error_bound (j : Json) (e : String)
    (h : pyUpperJ j = Except.error e) : e.length ≤ 300 := by
  cases j with
  | jnull => simp [pyUpperJ, pyTypeName] at h; subst h; decide
  | jbool b => simp [pyUpperJ, pyTypeName] at h; subst h; decide
  | jint n => simp [pyUpperJ, pyTypeName] at h; subst h; decide
  | jarr xs => simp [pyUpperJ, pyTypeName] at h; subst h; decide
  | jobj fs => simp [pyUpperJ, pyTypeName] at h; subst h; decide
  | jstr s => simp [pyUpperJ] at h

theorem normalizeInner_error_bound (p : Json) (e : String)
    (h : normalizeInner p = Except.error e) : e.length ≤ 300 := by
  cases hg : pyDictGet p "risk_score" (Json.jint 50) with
  | error e1 =>
    simp only [normalizeInner, hg] at h
    cases h
    exact pyDictGet_error_bound _ _ _ _ hg
  | ok rsj =>
    cases hi : pyInt rsj with
    | error e2 =>
      simp only [normalizeInner, hg, hi] at h
      cases h
      exact pyInt_error_bound _ _ hi
    | ok rs0 =>
      cases hg2 : pyDictGet p "recommendation" (Json.jstr "REVIEW") with
      | error e3 =>
        simp only [normalizeInner, hg, hi, hg2] at h
        cases h
        exact pyDictGet_error_bound _ _ _ _ hg2
      | ok rcj =>
        cases hu : pyUpperJ rcj with
        | error e4 =>
          simp only [normalizeInner, hg, hi, hg2, hu] at h
          cases h
          exact pyUpperJ_error_bound _ _ hu
        | ok rcu =>
          cases hg3 : pyDictGet p "reasoning" (Json.jstr "No reasoning provided") with
          | error e5 =>
            simp only [normalizeInner, hg, hi, hg2, hu, hg3] at h
            cases h
            exact pyDictGet_error_bound _ _ _ _ hg3
          | ok rj =>
            simp only [normalizeInner, hg, hi, hg2, hu, hg3] at h
            exact Except.noConfusion h

theorem normalizeInner_ok_shape (p : Json) (v : Verdict)
    (h : normalizeInner p = Except.ok v) :
    ∃ rs0 rcu rj, v =
      { risk_score := max 0 (min 100 rs0)
        recommendation :=
          if rcu ∈ ["APPROVE", "REVIEW", "DENY"] then rcu else "REVIEW"
        reasoning := pyTake (pyStr rj) 1000 } := by
  cases hg : pyDictGet p "risk_score" (Json.jint 50) with
  | error e1 =>
    simp only [normalizeInner, hg] at h
    exact Except.noConfusion h
  | ok rsj =>
    cases hi : pyInt rsj with
    | error e2 =>
      simp only [normalizeInner, hg, hi] at h
      exact Except.noConfusion h
    | ok rs0 =>
      cases hg2 : pyDictGet p "recommendation" (Json.jstr "REVIEW") with
      | error e3 =>
        simp only [normalizeInner, hg, hi, hg2] at h
        exact Except.noConfusion h
      | ok rcj =>
        cases hu : pyUpperJ rcj with
        | error e4 =>
          simp only [normalizeInner, hg, hi, hg2, hu] at h
          exact Except.noConfusion h
        | ok rcu =>
          cases hg3 : pyDictGet p "reasoning" (Json.jstr "No reasoning provided") with
          | error e5 =>
            simp only [normalizeInner, hg, hi, hg2, hu, hg3] at h
            exact Except.noConfusion h
          | ok rj =>
            simp only [normalizeInner, hg, hi, hg2, hu, hg3] at h
            cases h
            exact ⟨rs0, rcu, rj, rfl⟩

theorem verdictOk_of_parsed (p : Json) :
    VerdictOk (analyze_claim_of_parsed p).verdict := by
  cases hn : normalizeInner p with
  | ok v =>
    obtain ⟨rs0, rcu, rj, rfl⟩ := normalizeInner_ok_shape p v hn
    have hres : analyze_claim_of_parsed p =
        { verdict :=
            { risk_score := max 0 (min 100 rs0)
              recommendation :=
                if rcu ∈ ["APPROVE", "REVIEW", "DENY"] then rcu else "REVIEW"
              reasoning := pyTake (pyStr rj) 1000 }
          error := none } := by
      unfold analyze_claim_of_parsed
      rw [hn]
    rw [hres]
    refine ⟨?_, ?_, ?_, ?_⟩
    · show (0 : Int) ≤ max 0 (min 100 rs0)
      omega
    · show max 0 (min 100 rs0) ≤ 100
      omega
    · show (if rcu ∈ ["APPROVE", "REVIEW", "DENY"] then rcu else "REVIEW") = "APPROVE" ∨
        (if rcu ∈ ["APPROVE", "REVIEW", "DENY"] then rcu else "REVIEW") = "REVIEW" ∨
        (if rcu ∈ ["APPROVE", "REVIEW", "DENY"] then rcu else "REVIEW") = "DENY"
      by_cases hm : rcu ∈ ["APPROVE", "REVIEW", "DENY"]
      · rw [if_pos hm]
        simp only [List.mem_cons, List.mem_singleton, List.not_mem_nil, or_false] at hm
        exact hm
      · rw [if_neg hm]
        exact Or.inr (Or.inl rfl)
    · show (pyTake (pyStr rj) 1000).length ≤ 1000
      exact pyTake_length_le _ _
  | error e =>
    have hb := normalizeInner_error_bound p e hn
    have hres : analyze_claim_of_parsed p =
        { verdict :=
            { risk_score := 50
              recommendation := "REVIEW"
              reasoning := "System error occurred: " ++ e }
          error := some e } := by
      unfold analyze_claim_of_parsed
      rw [hn]
    rw [hres]
    refine ⟨?_, ?_, Or.inr (Or.inl rfl), ?_⟩
    · show (0 : Int) ≤ 50
      decide
    · show (50 : Int) ≤ 100
      decide
    · show ("System error occurred: " ++ e).length ≤ 1000
      rw [String.length_append]
      have h1 : ("System error occurred: ").length ≤ 100 := by decide
      omega

/-- C1.  The Response Normalizer is total — every raw reply string yields
a fully populated verdict record, no exception reaching the caller being
modelled by the plain (non-Except) return type — and the record always
satisfies the ModelVerdict invariants: risk_score in [0, 100],
recommendation in the APPROVE/REVIEW/DENY enum, reasoning at most 1000
characters, on the parse-failure path and the internal
exception-fallback path alike. -/
theorem normalizer_total_invariants (raw : String) :
    VerdictOk (analyze_claim_normalize raw).verdict := by
  cases hl : json_loads (pyStrip raw) with
  | none =>
    have hres : analyze_claim_normalize raw =
        { verdict :=
            { risk_score := 50
              recommendation := "REVIEW"
              reasoning := "Unable to parse model response. Please review manually." }
          error := none } := by
      unfold analyze_claim_normalize
      rw [hl]
    rw [hres]
    exact ⟨by decide, by decide, Or.inr (Or.inl rfl), by decide⟩
  | some parsed =>
    have hres : analyze_claim_normalize raw = analyze_claim_of_parsed parsed := by
      unfold analyze_claim_normalize
      rw [hl]
    rw [hres]
    exact verdictOk_of_parsed parsed

theorem normalizeInner_jobj_eval (fields : List (String × Json)) (rs0 : Int)
    (rcu : String)
    (h1 : pyInt ((pyDictLookup fields "risk_score").getD (Json.jint 50)) =
      Except.ok rs0)
    (h2 : pyUpperJ ((pyDictLookup fields "recommendation").getD (Json.jstr "REVIEW")) =
      Except.ok rcu) :
    normalizeInner (Json.jobj fields) = Except.ok
      { risk_score := max 0 (min 100 rs0)
        recommendation :=
          if rcu ∈ ["APPROVE", "REVIEW", "DENY"] then rcu else "REVIEW"
        reasoning := pyTake
          (pyStr ((pyDictLookup fields "reasoning").getD
            (Json.jstr "No reasoning provided"))) 1000 } := by
  simp only [normalizeInner, pyDictGet, h1, h2]

theorem riskFieldOk_int (fields : List (String × Json))
    (h : riskFieldOk fields = true) :
    ∃ rs0, pyInt ((pyDictLookup fields "risk_score").getD (Json.jint 50)) =
      Except.ok rs0 := by
  cases hl : pyDictLookup fields "risk_score" with
  | none => exact ⟨50, rfl⟩
  | some j =>
    cases hi : pyInt j with
    | ok n => exact ⟨n, by simpa using hi⟩
    | error e =>
      unfold riskFieldOk at h
      rw [hl] at h
      simp [hi] at h

theorem recFieldOk_str (fields : List (String × Json))
    (h : recFieldOk fields = true) :
    ∃ rcu, pyUpperJ ((pyDictLookup fields "recommendation").getD
      (Json.jstr "REVIEW")) = Except.ok rcu := by
  cases hl : pyDictLookup fields "recommendation" with
  | none => exact ⟨pyUpper "REVIEW", rfl⟩
  | some j =>
    cases j with
    | jstr s => exact ⟨pyUpper s, rfl⟩
    | jnull => unfold recFieldOk at h; rw [hl] at h; simp at h
    | jbool b => unfold recFieldOk at h; rw [hl] at h; simp at h
    | jint n => unfold recFieldOk at h; rw [hl] at h; simp at h
    | jarr xs => unfold recFieldOk at h; rw [hl] at h; simp at h
    | jobj fs => unfold recFieldOk at h; rw [hl] at h; simp at h

/-- C2 (counterexample).  A parsed reply whose risk_score field is the
integer 200 but whose recommendation field is a non-string: the
recommendation's .upper() raises, the outer handler takes over, and the
returned risk_score is the fallback 50, not the clamp
max(0, min(100, 200)) = 100 that the claim asserts for every such reply. -/
theorem risk_clamp_cx :
    (analyze_claim_of_parsed (Json.jobj
      [("risk_score", Json.jint 200), ("recommendation", Json.jint 5)])).verdict.risk_score ≠
      max 0 (min 100 200) := by decide

/-- C2 (amended).  For every parsed reply whose risk_score field is an
integer v, provided the recommendation field is absent or a string (so
no exception reroutes the record to the system-error fallback), the
normalized risk_score equals max(0, min(100, v)), however far out of
range v is. -/
theorem risk_score_clamped (fields : List (String × Json)) (v : Int)
    (hv : pyDictLookup fields "risk_score" = some (Json.jint v))
    (hrec : recFieldOk fields = true) :
    (analyze_claim_of_parsed (Json.jobj fields)).verdict.risk_score =
      max 0 (min 100 v) := by
  obtain ⟨rcu, h2⟩ := recFieldOk_str fields hrec
  have h1 : pyInt ((pyDictLookup fields "risk_score").getD (Json.jint 50)) =
      Except.ok v := by
    rw [hv]; rfl
  have heval := normalizeInner_jobj_eval fields v rcu h1 h2
  unfold analyze_claim_of_parsed
  rw [heval]

/-- Witness for risk_score_clamped at a concrete out-of-range reply. -/
theorem risk_score_clamped_witness :
    pyDictLookup [("risk_score", Json.jint 200)] "risk_score" =
      some (Json.jint 200) ∧
    recFieldOk [("risk_score", Json.jint 200)] = true ∧
    (analyze_claim_of_parsed (Json.jobj [("risk_score", Json.jint 200)])).verdict.risk_score =
      max 0 (min 100 200) :=
  ⟨rfl, rfl, risk_score_clamped [("risk_score", Json.jint 200)] 200 rfl rfl⟩

/-- C3 (counterexample).  A parsed reply whose recommendation field is
the string "approve" (which upper-cases into the enum) but whose
risk_score field is a non-numeric string: int() raises first, the outer
handler takes over, and the returned recommendation is the fallback
REVIEW, not the APPROVE the claim asserts. -/
theorem recommendation_passthrough_cx :
    pyUpper "approve" = "APPROVE" ∧
    (analyze_claim_of_parsed (Json.jobj
      [("risk_score", Json.jstr "x"), ("recommendation", Json.jstr "approve")])).verdict.recommendation ≠
      "APPROVE" := by decide

/-- C3 (amended).  Provided the risk_score field is absent or
integer-convertible (so no earlier exception reroutes the record), the
normalized recommendation is the upper-cased input when that upper-casing
is in the APPROVE/REVIEW/DENY enum and REVIEW otherwise, and a missing
recommendation yields REVIEW; an unrecognized value is never passed
through. -/
theorem recommendation_sanitized (fields : List (String × Json))
    (hrk : riskFieldOk fields = true) :
    (∀ s, pyDictLookup fields "recommendation" = some (Json.jstr s) →
      (analyze_claim_of_parsed (Json.jobj fields)).verdict.recommendation =
        (if pyUpper s ∈ ["APPROVE", "REVIEW", "DENY"] then pyUpper s else "REVIEW")) ∧
    (pyDictLookup fields "recommendation" = none →
      (analyze_claim_of_parsed (Json.jobj fields)).verdict.recommendation =
        "REVIEW") := by
  obtain ⟨rs0, h1⟩ := riskFieldOk_int fields hrk
  constructor
  · intro s hs
    have h2 : pyUpperJ ((pyDictLookup fields "recommendation").getD
        (Json.jstr "REVIEW")) = Except.ok (pyUpper s) := by
      rw [hs]; rfl
    have heval := normalizeInner_jobj_eval fields rs0 (pyUpper s) h1 h2
    unfold analyze_claim_of_parsed
    rw [heval]
  · intro hs
    have h2 : pyUpperJ ((pyDictLookup fields "recommendation").getD
        (Json.jstr "REVIEW")) = Except.ok (pyUpper "REVIEW") := by
      rw [hs]; rfl
    have heval := normalizeInner_jobj_eval fields rs0 (pyUpper "REVIEW") h1 h2
    unfold analyze_claim_of_parsed
    rw [heval]
    show (if pyUpper "REVIEW" ∈ ["APPROVE", "REVIEW", "DENY"]
      then pyUpper "REVIEW" else "REVIEW") = "REVIEW"
    decide

/-- Witness for recommendation_sanitized at a concrete reply. -/
theorem recommendation_sanitized_witness :
    riskFieldOk [("recommendation", Json.jstr "deny")] = true ∧
    pyDictLookup [("recommendation", Json.jstr "deny")] "recommendation" =
      some (Json.jstr "deny") ∧
    (analyze_claim_of_parsed (Json.jobj
      [("recommendation", Json.jstr "deny")])).verdict.recommendation =
      (if pyUpper "deny" ∈ ["APPROVE", "REVIEW", "DENY"] then pyUpper "deny"
        else "REVIEW") :=
  ⟨rfl, rfl,
    (recommendation_sanitized [("recommendation", Json.jstr "deny")] rfl).1 "deny" rfl⟩

/-- C4 (counterexample).  A parsed reply whose reasoning field is the
short string "hello" but whose risk_score field is a non-numeric string:
int() raises first, the outer handler takes over, and the returned
reasoning is the system-error text, not the unchanged "hello" the claim
asserts for every reasoning of length at most 1000. -/
theorem reasoning_passthrough_cx :
    ("hello" : String).length ≤ 1000 ∧
    (analyze_claim_of_parsed (Json.jobj
      [("risk_score", Json.jstr "x"), ("reasoning", Json.jstr "hello")])).verdict.reasoning ≠
      "hello" := by decide

/-- C4 (amended).  Provided the risk_score and recommendation fields
raise no exception (absent or well-typed), the normalized reasoning obeys
the claim: a string longer than 1000 characters is cut to length exactly
1000 and is a prefix of the input, a string of length at most 1000 passes
through unchanged, and a missing reasoning defaults to
"No reasoning provided". -/
theorem reasoning_truncation (fields : List (String × Json))
    (hrk : riskFieldOk fields = true) (hrc : recFieldOk fields = true) :
    (∀ s, pyDictLookup fields "reasoning" = some (Json.jstr s) →
      ((1000 < s.length →
        (analyze_claim_of_parsed (Json.jobj fields)).verdict.reasoning.length = 1000 ∧
        ∃ rest, s.data =
          (analyze_claim_of_parsed (Json.jobj fields)).verdict.reasoning.data ++ rest) ∧
      (s.length ≤ 1000 →
        (analyze_claim_of_parsed (Json.jobj fields)).verdict.reasoning = s))) ∧
    (pyDictLookup fields "reasoning" = none →
      (analyze_claim_of_parsed (Json.jobj fields)).verdict.reasoning =
        "No reasoning provided") := by
  obtain ⟨rs0, h1⟩ := riskFieldOk_int fields hrk
  obtain ⟨rcu, h2⟩ := recFieldOk_str fields hrc
  have heval := normalizeInner_jobj_eval fields rs0 rcu h1 h2
  have hres : (analyze_claim_of_parsed (Json.jobj fields)).verdict.reasoning =
      pyTake (pyStr ((pyDictLookup fields "reasoning").getD
        (Json.jstr "No reasoning provided"))) 1000 := by
    unfold analyze_claim_of_parsed
    rw [heval]
  constructor
  · intro s hs
    rw [hs] at hres
    constructor
    · intro hlong
      constructor
      · rw [hres]
        show (s.data.take 1000).length = 1000
        rw [List.length_take]
        have : s.length = s.data.length := rfl
        omega
      · refine ⟨s.data.drop 1000, ?_⟩
        rw [hres]
        show s.data = s.data.take 1000 ++ s.data.drop 1000
        exact (List.take_append_drop 1000 s.data).symm
    · intro hshort
      rw [hres]
      show (⟨s.data.take 1000⟩ : String) = s
      have : s.data.length ≤ 1000 := hshort
      rw [List.take_of_length_le this]
  · intro hs
    rw [hs] at hres
    rw [hres]
    decide

/-- Witness for reasoning_truncation at a concrete reply. -/
theorem reasoning_truncation_witness :
    riskFieldOk [("reasoning", Json.jstr "abc")] = true ∧
    ("abc" : String).length ≤ 1000 ∧
    (analyze_claim_of_parsed (Json.jobj
      [("reasoning", Json.jstr "abc")])).verdict.reasoning = "abc" :=
  ⟨rfl, by decide,
    ((reasoning_truncation [("reasoning", Json.jstr "abc")] rfl rfl).1 "abc" rfl).2
      (by decide)⟩

theorem normalizeInner_jobj_ok_components (f : List (String × Json)) (v : Verdict)
    (h : normalizeInner (Json.jobj f) = Except.ok v) :
    (∃ rs0, pyInt ((pyDictLookup f "risk_score").getD (Json.jint 50)) =
        Except.ok rs0 ∧ v.risk_score = max 0 (min 100 rs0)) ∧
    (∃ rcu, pyUpperJ ((pyDictLookup f "recommendation").getD (Json.jstr "REVIEW")) =
        Except.ok rcu ∧ v.recommendation =
          (if rcu ∈ ["APPROVE", "REVIEW", "DENY"] then rcu else "REVIEW")) ∧
    v.reasoning = pyTake
      (pyStr ((pyDictLookup f "reasoning").getD (Json.jstr "No reasoning provided"))) 1000 := by
  cases hi : pyInt ((pyDictLookup f "risk_score").getD (Json.jint 50)) with
  | error e =>
    simp only [normalizeInner, pyDictGet, hi] at h
    exact Except.noConfusion h
  | ok rs0 =>
    cases hu : pyUpperJ ((pyDictLookup f "recommendation").getD (Json.jstr "REVIEW")) with
    | error e =>
      simp only [normalizeInner, pyDictGet, hi, hu] at h
      exact Except.noConfusion h
    | ok rcu =>
      simp only [normalizeInner, pyDictGet, hi, hu] at h
      cases h
      exact ⟨⟨rs0, rfl, rfl⟩, ⟨rcu, rfl, rfl⟩, rfl⟩

/-- C7 (counterexample).  Two parsed replies that agree on their
recommendation and reasoning fields but differ in risk_score — one
carries the non-numeric risk_score "x" — produce different reasoning
outputs, because the int() exception reroutes the whole record to the
system-error fallback.  The output reasoning therefore does not depend
only on the reasoning field, contradicting the claimed independence. -/
theorem field_independence_cx :
    pyDictLookup [("risk_score", Json.jstr "x"), ("reasoning", Json.jstr "hello")]
        "recommendation" =
      pyDictLookup [("reasoning", Json.jstr "hello")] "recommendation" ∧
    pyDictLookup [("risk_score", Json.jstr "x"), ("reasoning", Json.jstr "hello")]
        "reasoning" =
      pyDictLookup [("reasoning", Json.jstr "hello")] "reasoning" ∧
    (analyze_claim_of_parsed (Json.jobj
      [("risk_score", Json.jstr "x"), ("reasoning", Json.jstr "hello")])).verdict.reasoning ≠
    (analyze_claim_of_parsed (Json.jobj
      [("reasoning", Json.jstr "hello")])).verdict.reasoning :=
  ⟨rfl, rfl, by decide⟩

/-- C7 (amended).  When no field raises — normalizeInner succeeds on both
replies — the three fields are extracted independently: replies agreeing
on a field's lookup agree on that output component, whatever their other
fields are.  A malformed present value instead reroutes the entire record
to the exception fallback, overriding the other two fields (see the
counterexample). -/
theorem field_independence_of_ok (f1 f2 : List (String × Json)) (v1 v2 : Verdict)
    (h1 : normalizeInner (Json.jobj f1) = Except.ok v1)
    (h2 : normalizeInner (Json.jobj f2) = Except.ok v2) :
    (pyDictLookup f1 "risk_score" = pyDictLookup f2 "risk_score" →
      v1.risk_score = v2.risk_score) ∧
    (pyDictLookup f1 "recommendation" = pyDictLookup f2 "recommendation" →
      v1.recommendation = v2.recommendation) ∧
    (pyDictLookup f1 "reasoning" = pyDictLookup f2 "reasoning" →
      v1.reasoning = v2.reasoning) := by
  obtain ⟨⟨a1, ha1, hva1⟩, ⟨b1, hb1, hvb1⟩, hc1⟩ :=
    normalizeInner_jobj_ok_components f1 v1 h1
  obtain ⟨⟨a2, ha2, hva2⟩, ⟨b2, hb2, hvb2⟩, hc2⟩ :=
    normalizeInner_jobj_ok_components f2 v2 h2
  refine ⟨?_, ?_, ?_⟩
  · intro hl
    rw [hl] at ha1
    rw [ha2] at ha1
    cases ha1
    rw [hva1, hva2]
  · intro hl
    rw [hl] at hb1
    rw [hb2] at hb1
    cases hb1
    rw [hvb1, hvb2]
  · intro hl
    rw [hc1, hc2, hl]

/-- Witness for field_independence_of_ok at two concrete replies that
agree on all three lookups. -/
theorem field_independence_witness :
    (pyDictLookup [("recommendation", Json.jstr "deny")] "risk_score" =
       pyDictLookup [("recommendation", Json.jstr "deny"), ("extra", Json.jnull)]
         "risk_score" →
     (⟨50, "DENY", "No reasoning provided"⟩ : Verdict).risk_score =
       (⟨50, "DENY", "No reasoning provided"⟩ : Verdict).risk_score) ∧
    (pyDictLookup [("recommendation", Json.jstr "deny")] "recommendation" =
       pyDictLookup [("recommendation", Json.jstr "deny"), ("extra", Json.jnull)]
         "recommendation" →
     (⟨50, "DENY", "No reasoning provided"⟩ : Verdict).recommendation =
       (⟨50, "DENY", "No reasoning provided"⟩ : Verdict).recommendation) ∧
    (pyDictLookup [("recommendation", Json.jstr "deny")] "reasoning" =
       pyDictLookup [("recommendation", Json.jstr "deny"), ("extra", Json.jnull)]
         "reasoning" →
     (⟨50, "DENY", "No reasoning provided"⟩ : Verdict).reasoning =
       (⟨50, "DENY", "No reasoning provided"⟩ : Verdict).reasoning) :=
  field_independence_of_ok [("recommendation", Json.jstr "deny")]
    [("recommendation", Json.jstr "deny"), ("extra", Json.jnull)]
    ⟨50, "DENY", "No reasoning provided"⟩ ⟨50, "DENY", "No reasoning provided"⟩
    rfl rfl

theorem parseValue_backtick (n : Nat) (l : List Char) :
    parseValue (n + 1) ('\x60' :: l) = none := rfl

theorem json_loads_backtick (l : List Char) :
    json_loads ⟨'\x60' :: l⟩ = none := by
  have hws : isJsonWs '\x60' = false := by decide
  have hskip : skipWs ('\x60' :: l) = '\x60' :: l := by
    unfold skipWs
    rw [List.dropWhile_cons, hws]
    simp
  unfold json_loads
  show (match parseValue (('\x60' :: l).length + 1) (skipWs ('\x60' :: l)) with
    | some (v, rest) => if skipWs rest = [] then some v else none
    | none => none) = none
  rw [hskip, show ('\x60' :: l).length + 1 = l.length + 1 + 1 from by simp,
    parseValue_backtick]

theorem pyStripList_bt (m : List Char) :
    pyStripList ('\x60' :: (m ++ ['\x60'])) = '\x60' :: (m ++ ['\x60']) := by
  have hws : isPyWs '\x60' = false := by decide
  simp [pyStripList, stripRight, List.dropWhile_cons, hws]

/-- C5 (counterexample).  The bare object text is parsed and normalized
to the defaults verdict, while the same text wrapped in a markdown code
fence fails json.loads — no fence stripping happens in this
implementation — and yields the parse-failure fallback instead: the two
inputs do not produce the same verdict. -/
theorem fence_strip_cx :
    analyze_claim_normalize "\x60\x60\x60json\n\x7b\x7d\n\x60\x60\x60" ≠
      analyze_claim_normalize "\x7b\x7d" := by decide

/-- C5 (amended).  This deployment variant performs no fence stripping:
for every text t, the reply consisting of t wrapped in a markdown code
fence (with the json language tag) fails the JSON parse — a stripped
fenced reply still begins with a backtick, which cannot start a JSON
document — and is normalized to the parse-failure fallback verdict
(risk 50, REVIEW), regardless of what the bare t would have produced. -/
theorem fenced_reply_parse_fallback (t : String) :
    analyze_claim_normalize ("\x60\x60\x60json\n" ++ t ++ "\n\x60\x60\x60") =
      { verdict :=
          { risk_score := 50
            recommendation := "REVIEW"
            reasoning := "Unable to parse model response. Please review manually." }
        error := none } := by
  have hdata : ("\x60\x60\x60json\n" ++ t ++ "\n\x60\x60\x60").data =
      '\x60' :: ((("\x60\x60json\n" : String).data ++ t.data ++
        ['\n', '\x60', '\x60']) ++ ['\x60']) := by
    rw [String.data_append, String.data_append]
    have h1 : ("\x60\x60\x60json\n" : String).data =
        '\x60' :: ("\x60\x60json\n" : String).data := by decide
    have h2 : ("\n\x60\x60\x60" : String).data =
        ['\n', '\x60', '\x60', '\x60'] := by decide
    rw [h1, h2]
    simp
  have hstrip : pyStrip ("\x60\x60\x60json\n" ++ t ++ "\n\x60\x60\x60") =
      ⟨'\x60' :: ((("\x60\x60json\n" : String).data ++ t.data ++
        ['\n', '\x60', '\x60']) ++ ['\x60'])⟩ := by
    unfold pyStrip
    rw [hdata, pyStripList_bt]
  have hload : json_loads (pyStrip ("\x60\x60\x60json\n" ++ t ++ "\n\x60\x60\x60")) =
      none := by
    rw [hstrip]
    exact json_loads_backtick _
  unfold analyze_claim_normalize
  rw [hload]

/-- C6.  Every reply whose (stripped) text fails the JSON parse is
normalized to exactly the fallback verdict — risk 50, recommendation
REVIEW, the manual-review reasoning, and no error field — so an
unparsable reply is never mapped to APPROVE or DENY. -/
theorem unparsable_reply_fallback (raw : String)
    (h : json_loads (pyStrip raw) = none) :
    analyze_claim_normalize raw =
      { verdict :=
          { risk_score := 50
            recommendation := "REVIEW"
            reasoning := "Unable to parse model response. Please review manually." }
        error := none } := by
  unfold analyze_claim_normalize
  rw [h]

/-- Witness for unparsable_reply_fallback at a concrete non-JSON reply. -/
theorem unparsable_reply_fallback_witness :
    json_loads (pyStrip "not json") = none ∧
    analyze_claim_normalize "not json" =
      { verdict :=
          { risk_score := 50
            recommendation := "REVIEW"
            reasoning := "Unable to parse model response. Please review manually." }
        error := none } :=
  ⟨rfl, unparsable_reply_fallback "not json" rfl⟩

theorem error_prefix_concat (e : String) :
    pyStartswith ("Error: " ++ e) "Error" = true := by
  unfold pyStartswith
  rw [String.data_append]
  have h1 : ("Error: " : String).data = ("Error" : String).data ++ [':', ' '] := by
    decide
  rw [h1, List.append_assoc]
  rw [ List.isPrefixOf_iff_prefix]
  exact List.prefix_append _ _

theorem extract_text_error_marker (pages : List String) (extractExc : Option String)
    (h : extractExc ≠ none ∨ pyStrip (joinPages pages) = "") :
    pyStartswith (extract_text_from_pdf pages extractExc) "Error" = true := by
  cases extractExc with
  | some e => exact error_prefix_concat e
  | none =>
    rcases h with h | h
    · exact absurd rfl h
    · show pyStartswith (if pyStrip (joinPages pages) = ""
        then "Error: No text could be extracted from PDF"
        else joinPages pages) "Error" = true
      rw [if_pos h]
      decide

theorem analyze_route_extraction_branch (filename now : String)
    (pages : List String) (extractExc : Option String)
    (modelOutcome : Except String String)
    (hname : filename ≠ "")
    (hpdf : pyEndswith (pyLower filename) ".pdf" = true)
    (hmark : pyStartswith (extract_text_from_pdf pages extractExc) "Error" = true) :
    analyze_route true filename none pages extractExc modelOutcome now =
      ({ status := 200, error := some "PDF processing failed", risk_score := 0,
         recommendation := "ERROR",
         reasoning := extract_text_from_pdf pages extractExc,
         filename := none, processed_at := none, model := none }, false) := by
  unfold analyze_route
  rw [if_neg (show ¬ (true = false) by decide), if_neg hname,
    if_neg (show ¬ (pyEndswith (pyLower filename) ".pdf" = false) by simp [hpdf])]
  show (if pyStartswith (extract_text_from_pdf pages extractExc) "Error" = true
      then _ else _) = _
  rw [if_pos hmark]

/-- C8.  A request whose PDF extraction raises (failure marker) or whose
extracted text is empty or whitespace-only is answered with the ERROR
verdict — recommendation ERROR, risk_score 0, the extraction error detail
as reasoning — at HTTP 200 (no 5xx escalation), and analyze_claim (hence
the Model Client) is never invoked. -/
theorem extraction_failure_error_response (filename now : String)
    (pages : List String) (extractExc : Option String)
    (modelOutcome : Except String String)
    (hname : filename ≠ "")
    (hpdf : pyEndswith (pyLower filename) ".pdf" = true)
    (hfail : extractExc ≠ none ∨ pyStrip (joinPages pages) = "") :
    (analyze_route true filename none pages extractExc modelOutcome now).1.status = 200 ∧
    (analyze_route true filename none pages extractExc modelOutcome now).1.recommendation = "ERROR" ∧
    (analyze_route true filename none pages extractExc modelOutcome now).1.risk_score = 0 ∧
    (analyze_route true filename none pages extractExc modelOutcome now).1.reasoning =
      extract_text_from_pdf pages extractExc ∧
    (analyze_route true filename none pages extractExc modelOutcome now).2 = false := by
  have hroute := analyze_route_extraction_branch filename now pages extractExc
    modelOutcome hname hpdf (extract_text_error_marker pages extractExc hfail)
  rw [hroute]
  exact ⟨rfl, rfl, rfl, rfl, rfl⟩

/-- Witness for extraction_failure_error_response at a request whose PDF
produces only an empty page text. -/
theorem extraction_failure_error_response_witness :
    ("claim.pdf" : String) ≠ "" ∧
    pyEndswith (pyLower "claim.pdf") ".pdf" = true ∧
    pyStrip (joinPages [""]) = "" ∧
    (analyze_route true "claim.pdf" none [""] none (Except.ok "") "now").1.status = 200 ∧
    (analyze_route true "claim.pdf" none [""] none (Except.ok "") "now").1.recommendation = "ERROR" ∧
    (analyze_route true "claim.pdf" none [""] none (Except.ok "") "now").2 = false := by
  have h := extraction_failure_error_response "claim.pdf" "now" [""] none
    (Except.ok "") (by decide) (by decide) (Or.inr (by decide))
  exact ⟨by decide, by decide, by decide, h.1, h.2.1, h.2.2.2.2⟩

/-- C9 (counterexample).  An unanticipated exception in the pipeline (a
failing temp-file save) is answered with HTTP 500 whose body carries
recommendation "ERROR", not the "REVIEW" the claim asserts. -/
theorem internal_error_review_cx :
    (analyze_route true "claim.pdf" (some "boom") [] none (Except.ok "") "now").1.status = 500 ∧
    (analyze_route true "claim.pdf" (some "boom") [] none (Except.ok "") "now").1.recommendation ≠
      "REVIEW" := by decide

/-- C9 (amended).  A request in which an unanticipated exception escapes
the pipeline is answered with a server error (500) whose body still
carries the three core verdict fields — risk_score 0, recommendation
ERROR, reasoning "System error: " plus the exception text — together
with an error field; never a bare failure. -/
theorem internal_error_envelope (filename e now : String)
    (pages : List String) (extractExc : Option String)
    (modelOutcome : Except String String)
    (hname : filename ≠ "")
    (hpdf : pyEndswith (pyLower filename) ".pdf" = true) :
    analyze_route true filename (some e) pages extractExc modelOutcome now =
      ({ status := 500, error := some e, risk_score := 0,
         recommendation := "ERROR", reasoning := "System error: " ++ e,
         filename := none, processed_at := none, model := none }, false) := by
  unfold analyze_route
  rw [if_neg (show ¬ (true = false) by decide), if_neg hname,
    if_neg (show ¬ (pyEndswith (pyLower filename) ".pdf" = false) by simp [hpdf])]

/-- Witness for internal_error_envelope at a concrete failing request. -/
theorem internal_error_envelope_witness :
    ("claim.pdf" : String) ≠ "" ∧
    pyEndswith (pyLower "claim.pdf") ".pdf" = true ∧
    analyze_route true "claim.pdf" (some "disk full") [] none (Except.ok "") "now" =
      ({ status := 500, error := some "disk full", risk_score := 0,
         recommendation := "ERROR", reasoning := "System error: " ++ "disk full",
         filename := none, processed_at := none, model := none }, false) :=
  ⟨by decide, by decide,
    internal_error_envelope "claim.pdf" "disk full" "now" [] none (Except.ok "")
      (by decide) (by decide)⟩

/-- C10.  A request whose extraction succeeds — nonempty stripped text is
returned as-is — but whose text itself begins with "Error" is
nevertheless routed to the extraction-failure branch, because failure is
signalled in-band by an "Error" prefix: the response is the ERROR verdict
(risk 0, the extracted text as reasoning) at HTTP 200, and analyze_claim
(hence the Model Client) is never invoked. -/
theorem inband_error_prefix_misclassified (filename now : String)
    (pages : List String) (modelOutcome : Except String String)
    (hname : filename ≠ "")
    (hpdf : pyEndswith (pyLower filename) ".pdf" = true)
    (hnonempty : pyStrip (joinPages pages) ≠ "")
    (herr : pyStartswith (joinPages pages) "Error" = true) :
    (analyze_route true filename none pages none modelOutcome now).1.status = 200 ∧
    (analyze_route true filename none pages none modelOutcome now).1.recommendation = "ERROR" ∧
    (analyze_route true filename none pages none modelOutcome now).1.risk_score = 0 ∧
    (analyze_route true filename none pages none modelOutcome now).1.reasoning =
      joinPages pages ∧
    (analyze_route true filename none pages none modelOutcome now).2 = false := by
  have hext : extract_text_from_pdf pages none = joinPages pages := by
    show (if pyStrip (joinPages pages) = ""
      then "Error: No text could be extracted from PDF"
      else joinPages pages) = joinPages pages
    rw [if_neg hnonempty]
  have hmark : pyStartswith (extract_text_from_pdf pages none) "Error" = true := by
    rw [hext]
    exact herr
  have hroute := analyze_route_extraction_branch filename now pages none
    modelOutcome hname hpdf hmark
  rw [hroute]
  exact ⟨rfl, rfl, rfl, hext, rfl⟩

/-- Witness for inband_error_prefix_misclassified at a PDF whose genuine
text begins with the word "Error". -/
theorem inband_error_prefix_misclassified_witness :
    ("claim.pdf" : String) ≠ "" ∧
    pyStrip (joinPages ["Error rate analysis"]) ≠ "" ∧
    pyStartswith (joinPages ["Error rate analysis"]) "Error" = true ∧
    (analyze_route true "claim.pdf" none ["Error rate analysis"] none
      (Except.ok "") "now").1.recommendation = "ERROR" ∧
    (analyze_route true "claim.pdf" none ["Error rate analysis"] none
      (Except.ok "") "now").1.reasoning = joinPages ["Error rate analysis"] ∧
    (analyze_route true "claim.pdf" none ["Error rate analysis"] none
      (Except.ok "") "now").2 = false := by
  have h := inband_error_prefix_misclassified "claim.pdf" "now"
    ["Error rate analysis"] (Except.ok "") (by decide) (by decide) (by decide)
    (by decide)
  exact ⟨by decide, by decide, by decide, h.2.1, h.2.2.2.1, h.2.2.2.2⟩

end AppCloudrun
